import Mathlib

/-! # Torus CLI: account signup pipeline and machine provisioning

A shallow embedding of `cmd/signup.go` (the `signup` action) and
`api/machines.go` (`MachinesClient.Create`, `createTokenSecret`).

Both functions are sequences of calls into collaborators (terminal prompts,
the configuration loader, the daemon round tripper, the entropy source).  The
answers of the collaborators are collected in an environment record, and each
embedded function returns the ordered list of collaborator calls it made
together with its Go return values.
-/

namespace Torus

/-! ## Go values shared by both packages -/

/-- Go `error` values.  `cli.NewExitError` builds the first form; every other
error value is only observed through its `Error()` text. -/
inductive GoError where
  | exitError (message : String) (exitCode : Int)
  | other (message : String)
deriving DecidableEq, Repr

/-- The `Error()` method of the `error` interface. -/
def GoError.Error : GoError → String
  | .exitError message _ => message
  | .other message => message

/-- Constructor `cli.NewExitError(message, exitCode)`. -/
def cli.NewExitError (message : String) (exitCode : Int) : GoError :=
  .exitError message exitCode

/-- Go `strings.Contains(s, substr)`: `substr` occurs somewhere within `s`.
Go compares bytes; on well-formed UTF-8 text that is the same as comparing
characters. -/
def strings.Contains (s substr : String) : Bool :=
  s.data.tails.any (fun t => substr.data.isPrefixOf t)

/-! ## Package `cmd`: the signup action -/

/-- Request body `apitypes.Signup`. -/
structure apitypes.Signup where
  Name : String
  Username : String
  Passphrase : String
  Email : String
  InviteCode : String
deriving DecidableEq, Repr

/-- The part of the user record that `signup` reads: `user.Body.Email`. -/
structure apitypes.UserBody where
  Email : String
deriving DecidableEq, Repr

/-- The user envelope returned by `client.Users.Signup`. -/
structure apitypes.User where
  Body : apitypes.UserBody
deriving DecidableEq, Repr

/-- A progress event `api.Event`. -/
structure api.Event where
  Message : String
deriving DecidableEq, Repr

/-- Static configuration `config.Config`.  The three pointer fields refer to
values of other packages (`url.URL`, `x509.CertPool`, `prefs.PublicKey`) and
are kept as text; `signup` only hands the record to `api.NewClient`. -/
structure config.Config where
  APIVersion : String
  Version : String
  TorusRoot : String
  SocketPath : String
  PidPath : String
  DBPath : String
  RegistryURI : Option String
  CABundle : Option String
  PublicKey : Option String
deriving DecidableEq, Repr

/-- Calls that `signup` makes into its collaborators, in program order. -/
inductive Effect where
  | FullNamePrompt
  | UsernamePrompt
  | EmailPrompt (defaultValue : String)
  | InviteCodePrompt (defaultValue : String)
  | PasswordPrompt (confirm : Bool)
  | CreateTorusRoot
  | NewConfig (torusRoot : String)
  | Println (line : String)
  | UsersSignup (body : apitypes.Signup)
  | performLogin (email password : String)
  | generateKeypairsForOrg (orgID : Option String) (all : Bool)
deriving DecidableEq, Repr

/-- Answers of the collaborators of `signup` during one run. -/
structure Env where
  usageString : String
  FullNamePrompt : Except GoError String
  UsernamePrompt : Except GoError String
  EmailPrompt : String → Except GoError String
  Getenv : String → String
  InviteCodePrompt : String → Except GoError String
  PasswordPrompt : Bool → Except GoError String
  CreateTorusRoot : Except GoError String
  NewConfig : String → Except GoError config.Config
  UsersSignup : apitypes.Signup →
    List (Option api.Event × Option GoError) × Except GoError apitypes.User
  performLogin : String → String → Option GoError
  generateKeypairsForOrg : Option String → Bool → Option GoError

/-- Record one collaborator call in front of the rest of the run. -/
def emit {ε α : Type} (e : ε) (rest : List ε × α) : List ε × α :=
  (e :: rest.1, rest.2)

/-- Record several collaborator calls in front of the rest of the run. -/
def emitAll {ε α : Type} (es : List ε) (rest : List ε × α) : List ε × α :=
  (es ++ rest.1, rest.2)

/-- Function `config.LoadConfig`: errors of either step are standardised into
exit errors. -/
def config.LoadConfig (env : Env) : List Effect × Except GoError config.Config :=
  emit .CreateTorusRoot <|
  match env.CreateTorusRoot with
  | .error err =>
    ([], .error (cli.NewExitError ("Failed to initialize Torus root dir: " ++ err.Error) (-1)))
  | .ok torusRoot =>
  emit (.NewConfig torusRoot) <|
  match env.NewConfig torusRoot with
  | .error err =>
    ([], .error (cli.NewExitError ("Failed to load config: " ++ err.Error) (-1)))
  | .ok cfg => ([], .ok cfg)

/-- The progress closure `output` defined inside `signup`: prints the message
of every non-nil event and ignores the error argument. -/
def signup.output (event : Option api.Event) (_err : Option GoError) : List Effect :=
  match event with
  | some ev => [.Println ev.Message]
  | none => []

/-- The action `signup` of `cmd/signup.go`, applied to the argument list of
the command.  Returns the collaborator calls made and the returned `error`
(`none` is Go `nil`). -/
def signup (env : Env) (args : List String) : List Effect × Option GoError :=
  if args.length > 0 ∧ args.length ≠ 2 then
    let text :=
      if args.length > 2 then "Too many arguments supplied.\n\n"
      else "Too few arguments supplied.\n\n"
    let text := text ++ env.usageString
    ([], some (cli.NewExitError text (-1)))
  else
  emit .FullNamePrompt <|
  match env.FullNamePrompt with
  | .error err => ([], some err)
  | .ok name =>
  emit .UsernamePrompt <|
  match env.UsernamePrompt with
  | .error err => ([], some err)
  | .ok username =>
  let defaultEmail := if args.length = 2 then args.getD 0 "" else ""
  let defaultInvite := if args.length = 2 then args.getD 1 "" else ""
  emit (.EmailPrompt defaultEmail) <|
  match env.EmailPrompt defaultEmail with
  | .error err => ([], some err)
  | .ok email =>
  let invite : List Effect × Except GoError String :=
    if env.Getenv "AG_DEBUG" = "" then
      emit (.InviteCodePrompt defaultInvite) ([], env.InviteCodePrompt defaultInvite)
    else
      ([], .ok "")
  emitAll invite.1 <|
  match invite.2 with
  | .error err => ([], some err)
  | .ok inviteCode =>
  emit (.PasswordPrompt true) <|
  match env.PasswordPrompt true with
  | .error err => ([], some err)
  | .ok password =>
  emitAll (config.LoadConfig env).1 <|
  match (config.LoadConfig env).2 with
  | .error err => ([], some err)
  | .ok _cfg =>
  let body : apitypes.Signup :=
    { Name := name, Username := username, Passphrase := password,
      Email := email, InviteCode := inviteCode }
  emit (.Println "") <|
  emit (.UsersSignup body) <|
  emitAll ((env.UsersSignup body).1.flatMap (fun c => signup.output c.1 c.2)) <|
  match (env.UsersSignup body).2 with
  | .error err =>
    if strings.Contains err.Error "resource exists" then
      ([], some (cli.NewExitError "Email address in use, please try again." (-1)))
    else
      ([], some (cli.NewExitError "Signup failed, please try again." (-1)))
  | .ok user =>
  emit (.performLogin user.Body.Email password) <|
  match env.performLogin user.Body.Email password with
  | some err => ([], some err)
  | none =>
  emit (.generateKeypairsForOrg none true) <|
  match env.generateKeypairsForOrg none true with
  | some err => ([], some err)
  | none =>
  emit (.Println "") <|
  emit (.Println "Your account has been created!") <|
  ([], none)

/-- Whether a collaborator call talks to the daemon: the Signup request and
the two helpers `performLogin` and `generateKeypairsForOrg`. -/
def Effect.isDaemonCall : Effect → Bool
  | .UsersSignup _ => true
  | .performLogin _ _ => true
  | .generateKeypairsForOrg _ _ => true
  | _ => false

/-- Whether a collaborator call is a terminal prompt. -/
def Effect.isPrompt : Effect → Bool
  | .FullNamePrompt => true
  | .UsernamePrompt => true
  | .EmailPrompt _ => true
  | .InviteCodePrompt _ => true
  | .PasswordPrompt _ => true
  | _ => false

/-! ### Proof decomposition of `signup`

The two definitions below cut `signup` at line 98 of `cmd/signup.go`; the
lemma `signup_eq_collect_stages` shows that `signup` is their composition. -/

/-- Lines 27 to 94 of `signup`: argument check, prompts, configuration, and
the request body that is built from the collected values. -/
def signup.collect (env : Env) (args : List String) :
    List Effect × Except GoError apitypes.Signup :=
  if args.length > 0 ∧ args.length ≠ 2 then
    let text :=
      if args.length > 2 then "Too many arguments supplied.\n\n"
      else "Too few arguments supplied.\n\n"
    ([], .error (cli.NewExitError (text ++ env.usageString) (-1)))
  else
  emit .FullNamePrompt <|
  match env.FullNamePrompt with
  | .error err => ([], .error err)
  | .ok name =>
  emit .UsernamePrompt <|
  match env.UsernamePrompt with
  | .error err => ([], .error err)
  | .ok username =>
  let defaultEmail := if args.length = 2 then args.getD 0 "" else ""
  let defaultInvite := if args.length = 2 then args.getD 1 "" else ""
  emit (.EmailPrompt defaultEmail) <|
  match env.EmailPrompt defaultEmail with
  | .error err => ([], .error err)
  | .ok email =>
  let invite : List Effect × Except GoError String :=
    if env.Getenv "AG_DEBUG" = "" then
      emit (.InviteCodePrompt defaultInvite) ([], env.InviteCodePrompt defaultInvite)
    else
      ([], .ok "")
  emitAll invite.1 <|
  match invite.2 with
  | .error err => ([], .error err)
  | .ok inviteCode =>
  emit (.PasswordPrompt true) <|
  match env.PasswordPrompt true with
  | .error err => ([], .error err)
  | .ok password =>
  emitAll (config.LoadConfig env).1 <|
  match (config.LoadConfig env).2 with
  | .error err => ([], .error err)
  | .ok _cfg =>
  ([], .ok { Name := name, Username := username, Passphrase := password,
             Email := email, InviteCode := inviteCode })

/-- Lines 98 to 121 of `signup`: the Signup request, then Login, then keypair
generation, for the request body `body` (whose passphrase is the collected
password). -/
def signup.stages (env : Env) (body : apitypes.Signup) : List Effect × Option GoError :=
  emit (.Println "") <|
  emit (.UsersSignup body) <|
  emitAll ((env.UsersSignup body).1.flatMap (fun c => signup.output c.1 c.2)) <|
  match (env.UsersSignup body).2 with
  | .error err =>
    if strings.Contains err.Error "resource exists" then
      ([], some (cli.NewExitError "Email address in use, please try again." (-1)))
    else
      ([], some (cli.NewExitError "Signup failed, please try again." (-1)))
  | .ok user =>
  emit (.performLogin user.Body.Email body.Passphrase) <|
  match env.performLogin user.Body.Email body.Passphrase with
  | some err => ([], some err)
  | none =>
  emit (.generateKeypairsForOrg none true) <|
  match env.generateKeypairsForOrg none true with
  | some err => ([], some err)
  | none =>
  emit (.Println "") <|
  emit (.Println "Your account has been created!") <|
  ([], none)

/-- Steps of the collection phase of `signup`, given the two prompt defaults:
the five prompts (with the expected default values) and the two steps of
`config.LoadConfig`. -/
def Effect.isCollectStep (defaultEmail defaultInvite : String) : Effect → Bool
  | .FullNamePrompt => true
  | .UsernamePrompt => true
  | .EmailPrompt d => d == defaultEmail
  | .InviteCodePrompt d => d == defaultInvite
  | .PasswordPrompt c => c
  | .CreateTorusRoot => true
  | .NewConfig _ => true
  | _ => false

/-! ## Package `api`: machine provisioning -/

/-- One byte. -/
abbrev Byte := Fin 256

/-- Constant `tokenSecretSize` of `api/machines.go`. -/
def tokenSecretSize : Nat := 18

/-- Modelled from the spec: the type `base64.Value` (package `base64` is not
among the sources) is the transport-encoded form of a byte sequence, a
reversible binary-to-text encoding; the value is represented by the bytes it
encodes. -/
structure base64.Value where
  raw : List Byte
deriving DecidableEq, Repr

/-- Modelled from the spec: `base64.NewValue(b)` encodes the byte slice `b`. -/
def base64.NewValue (b : List Byte) : base64.Value := ⟨b⟩

/-- Modelled from the spec: `identity.ID`, the identifier of an org or team,
is a byte string whose content `Create` never inspects. -/
structure identity.ID where
  raw : List Byte
deriving DecidableEq, Repr

/-- Modelled from the spec: `apitypes.MachineSegment` is the result record
returned by the daemon; `Create` never reads or changes its content. -/
structure apitypes.MachineSegment where
  record : String
deriving DecidableEq, Repr

/-- Request body `apitypes.MachinesCreateRequest` as filled in by `Create`;
the three pointer fields are `none` when nil. -/
structure apitypes.MachinesCreateRequest where
  Name : String
  OrgID : Option identity.ID
  TeamID : Option identity.ID
  Secret : Option base64.Value
deriving DecidableEq, Repr

/-- Handle of a request value built by `NewDaemonRequest`. -/
structure http.Request where
  handle : Nat
deriving DecidableEq, Repr

/-- Outcome of the entropy source for one call of `rand.Read`: the bytes it
delivered before stopping, and the error it reported (`none` is nil). -/
structure EntropyRead where
  delivered : List Byte
  err : Option GoError
deriving DecidableEq, Repr

/-- Go `crypto/rand.Read(b)`: the delivered bytes overwrite the front of `b`;
returns the buffer after the call, the count `n` and the error. -/
def rand.Read (src : EntropyRead) (b : List Byte) : List Byte × Nat × Option GoError :=
  let got := src.delivered.take b.length
  (got ++ b.drop got.length, got.length, src.err)

/-- Documented contract of `crypto/rand.Read` (it reads with `io.ReadFull`):
on return `n == len(b)` if and only if `err == nil`. -/
def rand.ReadContract (src : EntropyRead) (b : List Byte) : Prop :=
  (rand.Read src b).2.1 = b.length ↔ (rand.Read src b).2.2 = none

instance (src : EntropyRead) (b : List Byte) : Decidable (rand.ReadContract src b) := by
  unfold rand.ReadContract
  infer_instance

/-- Calls made by `MachinesClient.Create`, in program order. -/
inductive api.Effect where
  | randRead (size : Nat)
  | NewDaemonRequest (method path : String) (query : Option String)
      (body : apitypes.MachinesCreateRequest)
  | DoWithProgress (req : http.Request) (reqID : String)
deriving DecidableEq, Repr

/-- Whether a call of `Create` is a daemon request step. -/
def api.Effect.isDaemonCall : api.Effect → Bool
  | .randRead _ => false
  | .NewDaemonRequest _ _ _ _ => true
  | .DoWithProgress _ _ => true

/-- Answers of the collaborators of `MachinesClient.Create` during one call:
the entropy source and the two methods of the round tripper. -/
structure api.Env where
  entropy : EntropyRead
  NewDaemonRequest : String → String → Option String → apitypes.MachinesCreateRequest →
    Except GoError (http.Request × String)
  DoWithProgress : http.Request → String → Except GoError apitypes.MachineSegment

/-- The buffer `make([]byte, tokenSecretSize)`. -/
def tokenBuffer : List Byte := List.replicate tokenSecretSize 0

/-- Function `createTokenSecret`: returns the pointer to the encoded secret
(`none` is nil) and the error. -/
def createTokenSecret (src : EntropyRead) :
    List api.Effect × (Option base64.Value × Option GoError) :=
  let value := tokenBuffer
  emit (.randRead value.length) <|
  let r := rand.Read src value
  match r.2.2 with
  | some err => ([], (none, some err))
  | none => ([], (some (base64.NewValue r.1), none))

/-- Method `MachinesClient.Create`: returns the calls made and the triple
machine segment, secret, error. -/
def MachinesClient.Create (env : api.Env) (orgID teamID : Option identity.ID)
    (name : String) :
    List api.Effect ×
      (Option apitypes.MachineSegment × Option base64.Value × Option GoError) :=
  emitAll (createTokenSecret env.entropy).1 <|
  match (createTokenSecret env.entropy).2 with
  | (_, some err) => ([], (none, none, some err))
  | (secret, none) =>
  let mcr : apitypes.MachinesCreateRequest :=
    { Name := name, OrgID := orgID, TeamID := teamID, Secret := secret }
  emit (.NewDaemonRequest "POST" "/machines" none mcr) <|
  match env.NewDaemonRequest "POST" "/machines" none mcr with
  | .error err => ([], (none, none, some err))
  | .ok (req, reqID) =>
  emit (.DoWithProgress req reqID) <|
  match env.DoWithProgress req reqID with
  | .error err => ([], (none, none, some err))
  | .ok result => ([], (some result, secret, none))

/-- The lines printed by the progress closure during the Signup request. -/
def signup.progress (env : Env) (body : apitypes.Signup) : List Effect :=
  (env.UsersSignup body).1.flatMap (fun c => signup.output c.1 c.2)

/-- The two prompt defaults computed at lines 49 to 54 of `signup`. -/
def signup.defaultEmail (args : List String) : String :=
  if args.length = 2 then args.getD 0 "" else ""

/-- See `signup.defaultEmail`. -/
def signup.defaultInvite (args : List String) : String :=
  if args.length = 2 then args.getD 1 "" else ""

/-- The two exit errors of the Signup stage. -/
def emailInUse : GoError := cli.NewExitError "Email address in use, please try again." (-1)

/-- See `emailInUse`. -/
def signupFailed : GoError := cli.NewExitError "Signup failed, please try again." (-1)

/-! ### Concrete collaborators for `Create` -/

/-- A daemon that accepts the request, with an entropy source delivering 18
bytes. -/
def sampleDaemon : api.Env where
  entropy := ⟨List.replicate 18 7, none⟩
  NewDaemonRequest := fun _ _ _ _ => .ok (⟨1⟩, "req-1")
  DoWithProgress := fun _ _ => .ok ⟨"machine ci"⟩

/-- An entropy source that stops after two bytes and reports an error. -/
def sampleShortEntropy : api.Env :=
  { sampleDaemon with entropy := ⟨[1, 2], some (.other "unexpected EOF")⟩ }

/-- A daemon that rejects the request during `DoWithProgress`. -/
def sampleDaemonRejects : api.Env :=
  { sampleDaemon with DoWithProgress := fun _ _ => .error (.other "unauthorized") }

/-! ### Concrete collaborators for `signup` -/

/-- A run in which every prompt is answered and every stage succeeds. -/
def sampleEnv : Env where
  usageString := "signup [email] [code]"
  FullNamePrompt := .ok "Ann Lee"
  UsernamePrompt := .ok "ann"
  EmailPrompt := fun d => .ok (if d = "" then "ann@example.com" else d)
  Getenv := fun _ => ""
  InviteCodePrompt := fun d => .ok (if d = "" then "invite-1" else d)
  PasswordPrompt := fun _ => .ok "correct horse"
  CreateTorusRoot := .ok "/home/ann/.torus"
  NewConfig := fun r => .ok ⟨"0.1.0", "alpha", r, r ++ "/daemon.socket",
    r ++ "/daemon.pid", r ++ "/daemon.db", some "https://registry.example", none, none⟩
  UsersSignup := fun b => ([(some ⟨"Creating account"⟩, none)], .ok ⟨⟨b.Email⟩⟩)
  performLogin := fun _ _ => none
  generateKeypairsForOrg := fun _ _ => none

/-- The body collected by `sampleEnv` when no arguments are given. -/
def sampleBody : apitypes.Signup :=
  { Name := "Ann Lee", Username := "ann", Passphrase := "correct horse",
    Email := "ann@example.com", InviteCode := "invite-1" }

/-- The registry already knows the email address. -/
def sampleEmailTaken : Env :=
  { sampleEnv with UsersSignup := fun _ => ([], .error (.other "Conflict: resource exists")) }

/-- The registry fails for another reason. -/
def sampleSignupDown : Env :=
  { sampleEnv with UsersSignup := fun _ => ([], .error (.other "Internal server error")) }

/-- The helper `performLogin` fails. -/
def sampleLoginFails : Env :=
  { sampleEnv with performLogin := fun _ _ => some (.other "connection refused") }

/-- The helper `generateKeypairsForOrg` fails. -/
def sampleKeypairFails : Env :=
  { sampleEnv with generateKeypairsForOrg := fun _ _ => some (.other "connection refused") }

/-! ## Lemmas on the signup action -/

/-- The substring test is the usual one: `substr` is a contiguous part of
`s`. -/
theorem strings_Contains_iff (s substr : String) :
    strings.Contains s substr = true ↔ substr.data <:+: s.data := by
  unfold strings.Contains
  rw [List.any_eq_true, List.infix_iff_prefix_suffix]
  constructor
  · rintro ⟨t, ht, hp⟩
    exact ⟨t, List.isPrefixOf_iff_prefix.mp hp, (List.mem_tails _ _).mp ht⟩
  · rintro ⟨t, hp, ht⟩
    exact ⟨t, (List.mem_tails _ _).mpr ht, List.isPrefixOf_iff_prefix.mpr hp⟩

theorem signup_eq_collect_stages (env : Env) (args : List String) :
    signup env args =
      match (signup.collect env args).2 with
      | .error err => ((signup.collect env args).1, some err)
      | .ok body => emitAll (signup.collect env args).1 (signup.stages env body) := by
  unfold signup signup.collect signup.stages
  by_cases hargs : args.length > 0 ∧ args.length ≠ 2
  · rw [if_pos hargs, if_pos hargs]
  rw [if_neg hargs, if_neg hargs]
  cases env.FullNamePrompt with
  | error e => rfl
  | ok name =>
  cases env.UsernamePrompt with
  | error e => rfl
  | ok username =>
  simp only []
  cases env.EmailPrompt (if args.length = 2 then args.getD 0 "" else "") with
  | error e => rfl
  | ok email =>
  simp only []
  by_cases hdbg : env.Getenv "AG_DEBUG" = ""
  · simp only [hdbg, if_true]
    cases env.InviteCodePrompt (if args.length = 2 then args.getD 1 "" else "") with
    | error e => rfl
    | ok inviteCode =>
    simp only [emit]
    cases env.PasswordPrompt true with
    | error e => rfl
    | ok password =>
    simp only []
    cases (config.LoadConfig env).2 with
    | error e => rfl
    | ok cfg => simp [emitAll]
  · simp only [hdbg, if_false]
    cases env.PasswordPrompt true with
    | error e => rfl
    | ok password =>
    simp only []
    cases (config.LoadConfig env).2 with
    | error e => rfl
    | ok cfg => simp [emitAll, emit]

theorem progress_mem {env : Env} {body : apitypes.Signup} {e : Effect}
    (h : e ∈ signup.progress env body) : ∃ line, e = .Println line := by
  unfold signup.progress at h
  rw [List.mem_flatMap] at h
  obtain ⟨c, _, hc⟩ := h
  unfold signup.output at hc
  split at hc
  · simp only [List.mem_singleton] at hc
    exact ⟨_, hc⟩
  · simp at hc

theorem LoadConfig_trace_all (env : Env) (dE dI : String) :
    (config.LoadConfig env).1.all (Effect.isCollectStep dE dI) = true := by
  unfold config.LoadConfig
  cases env.CreateTorusRoot with
  | error err => simp [emit, Effect.isCollectStep]
  | ok root =>
    simp only [emit]
    cases env.NewConfig root <;> simp [Effect.isCollectStep]

theorem collect_trace_all (env : Env) (args : List String) :
    (signup.collect env args).1.all
      (Effect.isCollectStep (signup.defaultEmail args) (signup.defaultInvite args)) = true := by
  unfold signup.collect signup.defaultEmail signup.defaultInvite
  by_cases hargs : args.length > 0 ∧ args.length ≠ 2
  · rw [if_pos hargs]; simp
  rw [if_neg hargs]
  simp only [emit, emitAll]
  generalize (if args.length = 2 then args.getD 0 "" else "") = dE
  generalize (if args.length = 2 then args.getD 1 "" else "") = dI
  have hc := LoadConfig_trace_all env dE dI
  generalize (config.LoadConfig env).2 = cfgr
  generalize (config.LoadConfig env).1 = cfgt at hc
  cases env.FullNamePrompt with
  | error err => simp [Effect.isCollectStep]
  | ok name =>
  cases env.UsernamePrompt with
  | error err => simp [Effect.isCollectStep]
  | ok username =>
  cases env.EmailPrompt dE with
  | error err => simp [Effect.isCollectStep]
  | ok email =>
  by_cases hdbg : env.Getenv "AG_DEBUG" = ""
  · simp only [hdbg, if_true]
    cases env.InviteCodePrompt dI with
    | error err => simp [Effect.isCollectStep]
    | ok inviteCode =>
    cases env.PasswordPrompt true with
    | error err => simp [Effect.isCollectStep]
    | ok password =>
    cases cfgr <;> simp only [List.all_cons, List.all_append, List.all_nil,
      Effect.isCollectStep, hc, beq_self_eq_true, Bool.and_self]
  · simp only [hdbg, if_false]
    cases env.PasswordPrompt true with
    | error err => simp [Effect.isCollectStep]
    | ok password =>
    cases cfgr <;> simp only [List.all_cons, List.all_append, List.all_nil,
      Effect.isCollectStep, hc, beq_self_eq_true, Bool.and_self]

theorem collect_mem_step {env : Env} {args : List String} {e : Effect}
    (h : e ∈ (signup.collect env args).1) :
    e.isCollectStep (signup.defaultEmail args) (signup.defaultInvite args) = true :=
  List.all_eq_true.mp (collect_trace_all env args) e h

theorem collect_mem_local {env : Env} {args : List String} {e : Effect}
    (h : e ∈ (signup.collect env args).1) :
    e.isDaemonCall = false ∧ ∀ line, e ≠ .Println line := by
  have hs := collect_mem_step h
  cases e <;> simp [Effect.isCollectStep, Effect.isDaemonCall] at hs ⊢

theorem collect_ok {env : Env} {args : List String} {body : apitypes.Signup}
    (h : (signup.collect env args).2 = .ok body) :
    ¬ (args.length > 0 ∧ args.length ≠ 2)
      ∧ env.FullNamePrompt = .ok body.Name
      ∧ env.UsernamePrompt = .ok body.Username
      ∧ env.EmailPrompt (signup.defaultEmail args) = .ok body.Email
      ∧ (if env.Getenv "AG_DEBUG" = "" then
            env.InviteCodePrompt (signup.defaultInvite args) = .ok body.InviteCode
          else body.InviteCode = "")
      ∧ env.PasswordPrompt true = .ok body.Passphrase
      ∧ ∃ cfg, (config.LoadConfig env).2 = .ok cfg := by
  revert h
  unfold signup.collect signup.defaultEmail signup.defaultInvite
  by_cases hargs : args.length > 0 ∧ args.length ≠ 2
  · rw [if_pos hargs]; simp
  rw [if_neg hargs]
  simp only [emit, emitAll]
  generalize (if args.length = 2 then args.getD 0 "" else "") = dE
  generalize (if args.length = 2 then args.getD 1 "" else "") = dI
  generalize (config.LoadConfig env).2 = cfgr
  cases env.FullNamePrompt with
  | error err => simp
  | ok name =>
  cases env.UsernamePrompt with
  | error err => simp
  | ok username =>
  cases env.EmailPrompt dE with
  | error err => simp
  | ok email =>
  by_cases hdbg : env.Getenv "AG_DEBUG" = ""
  · simp only [hdbg, if_true]
    cases env.InviteCodePrompt dI with
    | error err => simp
    | ok inviteCode =>
    cases env.PasswordPrompt true with
    | error err => simp
    | ok password =>
    cases cfgr with
    | error err => simp
    | ok cfg =>
      intro h
      simp only [Except.ok.injEq] at h
      subst h
      simp [hargs]
  · simp only [hdbg, if_false]
    cases env.PasswordPrompt true with
    | error err => simp
    | ok password =>
    cases cfgr with
    | error err => simp
    | ok cfg =>
      intro h
      simp only [Except.ok.injEq] at h
      subst h
      simp [hargs]

theorem stages_signup_error {env : Env} {body : apitypes.Signup} {err : GoError}
    (h : (env.UsersSignup body).2 = .error err) :
    signup.stages env body
      = (.Println "" :: .UsersSignup body :: signup.progress env body,
         some (if strings.Contains err.Error "resource exists" then emailInUse
               else signupFailed)) := by
  unfold signup.stages
  rw [h]
  by_cases hc : strings.Contains err.Error "resource exists" = true
  · simp [emit, emitAll, hc, signup.progress, emailInUse]
  · simp [emit, emitAll, hc, signup.progress, signupFailed]

theorem stages_login_error {env : Env} {body : apitypes.Signup} {user : apitypes.User}
    {err : GoError} (h : (env.UsersSignup body).2 = .ok user)
    (hl : env.performLogin user.Body.Email body.Passphrase = some err) :
    signup.stages env body
      = (.Println "" :: .UsersSignup body ::
           (signup.progress env body ++ [.performLogin user.Body.Email body.Passphrase]),
         some err) := by
  unfold signup.stages
  rw [h]
  simp only []
  rw [hl]
  simp [emit, emitAll, signup.progress]

theorem stages_keypair_error {env : Env} {body : apitypes.Signup} {user : apitypes.User}
    {err : GoError} (h : (env.UsersSignup body).2 = .ok user)
    (hl : env.performLogin user.Body.Email body.Passphrase = none)
    (hk : env.generateKeypairsForOrg none true = some err) :
    signup.stages env body
      = (.Println "" :: .UsersSignup body ::
           (signup.progress env body ++
             [.performLogin user.Body.Email body.Passphrase,
              .generateKeypairsForOrg none true]),
         some err) := by
  unfold signup.stages
  rw [h]
  simp only []
  rw [hl]
  simp only []
  rw [hk]
  simp [emit, emitAll, signup.progress]

theorem stages_success {env : Env} {body : apitypes.Signup} {user : apitypes.User}
    (h : (env.UsersSignup body).2 = .ok user)
    (hl : env.performLogin user.Body.Email body.Passphrase = none)
    (hk : env.generateKeypairsForOrg none true = none) :
    signup.stages env body
      = (.Println "" :: .UsersSignup body ::
           (signup.progress env body ++
             [.performLogin user.Body.Email body.Passphrase,
              .generateKeypairsForOrg none true,
              .Println "", .Println "Your account has been created!"]),
         none) := by
  unfold signup.stages
  rw [h]
  simp only []
  rw [hl]
  simp only []
  rw [hk]
  simp [emit, emitAll, signup.progress]

theorem signup_of_collect_error {env : Env} {args : List String} {err : GoError}
    (h : (signup.collect env args).2 = .error err) :
    signup env args = ((signup.collect env args).1, some err) := by
  rw [signup_eq_collect_stages, h]

theorem signup_of_collect_ok {env : Env} {args : List String} {body : apitypes.Signup}
    (h : (signup.collect env args).2 = .ok body) :
    signup env args
      = ((signup.collect env args).1 ++ (signup.stages env body).1,
         (signup.stages env body).2) := by
  rw [signup_eq_collect_stages, h]
  rfl

theorem stages_mem_signup {env : Env} {body b : apitypes.Signup}
    (h : Effect.UsersSignup b ∈ (signup.stages env body).1) : b = body := by
  have hp : Effect.UsersSignup b ∉ signup.progress env body := by
    intro hm
    obtain ⟨line, hline⟩ := progress_mem hm
    cases hline
  revert h
  cases hs : (env.UsersSignup body).2 with
  | error err =>
    rw [stages_signup_error hs]
    simp [hp]
  | ok user =>
    cases hl : env.performLogin user.Body.Email body.Passphrase with
    | some err =>
      rw [stages_login_error hs hl]
      simp [hp]
    | none =>
      cases hk : env.generateKeypairsForOrg none true with
      | some err =>
        rw [stages_keypair_error hs hl hk]
        simp [hp]
      | none =>
        rw [stages_success hs hl hk]
        simp [hp]

/-- A run that issued the Signup request collected its body, and is the
collection phase followed by the three stages. -/
theorem signup_reach {env : Env} {args : List String} {body : apitypes.Signup}
    (h : Effect.UsersSignup body ∈ (signup env args).1) :
    (signup.collect env args).2 = .ok body
      ∧ signup env args
          = ((signup.collect env args).1 ++ (signup.stages env body).1,
             (signup.stages env body).2) := by
  cases hc : (signup.collect env args).2 with
  | error err =>
    rw [signup_of_collect_error hc] at h
    have := (collect_mem_local h).1
    simp [Effect.isDaemonCall] at this
  | ok body0 =>
    rw [signup_of_collect_ok hc] at h
    simp only [List.mem_append] at h
    have hb : body = body0 := by
      rcases h with h | h
      · have := (collect_mem_local h).1
        simp [Effect.isDaemonCall] at this
      · exact stages_mem_signup h
    subst hb
    exact ⟨rfl, signup_of_collect_ok hc⟩

theorem daemon_call_not_local (env : Env) (args : List String) (body : apitypes.Signup)
    (e : Effect) (he : e.isDaemonCall = true) :
    e ∉ (signup.collect env args).1 ∧ e ∉ signup.progress env body := by
  constructor
  · intro hm
    rw [(collect_mem_local hm).1] at he
    cases he
  · intro hm
    obtain ⟨line, hl⟩ := progress_mem hm
    subst hl
    cases he

theorem exit_messages_differ : emailInUse ≠ signupFailed := by
  decide

/-! ## The signup action: claims -/

/-- C1: in every run of `signup` whose Signup request fails with an error whose
text contains "resource exists", the command returns the exit error "Email
address in use, please try again." and calls neither `performLogin` nor
`generateKeypairsForOrg`. -/
theorem signup_resource_exists (env : Env) (args : List String) (body : apitypes.Signup)
    (err : GoError)
    (hcall : Effect.UsersSignup body ∈ (signup env args).1)
    (hfail : (env.UsersSignup body).2 = .error err)
    (hcls : strings.Contains err.Error "resource exists" = true) :
    (signup env args).2
        = some (cli.NewExitError "Email address in use, please try again." (-1))
      ∧ (∀ email password, Effect.performLogin email password ∉ (signup env args).1)
      ∧ (∀ orgID all, Effect.generateKeypairsForOrg orgID all ∉ (signup env args).1) := by
  obtain ⟨_, hrun⟩ := signup_reach hcall
  rw [hrun, stages_signup_error hfail, if_pos hcls]
  refine ⟨rfl, ?_, ?_⟩
  · intro email password hm
    have hn := daemon_call_not_local env args body
      (.performLogin email password) rfl
    simp only [List.mem_append, List.mem_cons, reduceCtorEq, false_or] at hm
    exact hm.elim hn.1 hn.2
  · intro orgID all hm
    have hn := daemon_call_not_local env args body
      (.generateKeypairsForOrg orgID all) rfl
    simp only [List.mem_append, List.mem_cons, reduceCtorEq, false_or] at hm
    exact hm.elim hn.1 hn.2

/-- C2: in every run of `signup` whose Signup request fails, the command
returns one of two exit errors, decided by the substring test on the error
text: "Email address in use, please try again." exactly when the text
contains "resource exists", and "Signup failed, please try again." exactly
when it does not. -/
theorem signup_failure_message (env : Env) (args : List String) (body : apitypes.Signup)
    (err : GoError)
    (hcall : Effect.UsersSignup body ∈ (signup env args).1)
    (hfail : (env.UsersSignup body).2 = .error err) :
    ((signup env args).2
          = some (cli.NewExitError "Email address in use, please try again." (-1))
        ↔ strings.Contains err.Error "resource exists" = true)
      ∧ ((signup env args).2
          = some (cli.NewExitError "Signup failed, please try again." (-1))
        ↔ strings.Contains err.Error "resource exists" = false) := by
  obtain ⟨_, hrun⟩ := signup_reach hcall
  rw [hrun, stages_signup_error hfail]
  have hne := exit_messages_differ
  cases hc : strings.Contains err.Error "resource exists" with
  | true =>
    simp only [if_true, Bool.true_eq_false, iff_false, iff_true]
    refine ⟨rfl, ?_⟩
    intro h
    exact hne (Option.some.inj h)
  | false =>
    simp only [Bool.false_eq_true, if_false, iff_false, iff_true]
    refine ⟨?_, rfl⟩
    intro h
    exact hne (Option.some.inj h).symm

/-- C3: in every run of `signup` in which the Signup request and
`performLogin` succeed and `generateKeypairsForOrg` returns an error, the
command returns that error (not nil, so not the success outcome), and the
failing keypair call is the last call of the run: nothing is printed and no
daemon call is made after it. -/
theorem signup_keypair_failure (env : Env) (args : List String) (body : apitypes.Signup)
    (user : apitypes.User) (err : GoError)
    (hcall : Effect.UsersSignup body ∈ (signup env args).1)
    (hsignup : (env.UsersSignup body).2 = .ok user)
    (hlogin : env.performLogin user.Body.Email body.Passphrase = none)
    (hkeys : env.generateKeypairsForOrg none true = some err) :
    (signup env args).2 = some err
      ∧ (signup env args).2 ≠ none
      ∧ ∃ before, (signup env args).1 = before ++ [.generateKeypairsForOrg none true]
          ∧ Effect.generateKeypairsForOrg none true ∉ before := by
  obtain ⟨_, hrun⟩ := signup_reach hcall
  rw [hrun, stages_keypair_error hsignup hlogin hkeys]
  refine ⟨rfl, by simp, (signup.collect env args).1 ++ .Println "" :: .UsersSignup body ::
    (signup.progress env body ++ [.performLogin user.Body.Email body.Passphrase]), ?_, ?_⟩
  · simp
  · have hn := daemon_call_not_local env args body
      (.generateKeypairsForOrg none true) rfl
    simp only [List.mem_append, List.mem_cons, reduceCtorEq, false_or, List.mem_singleton,
      or_false, List.not_mem_nil]
    exact fun h => h.elim hn.1 hn.2

/-- The Login and keypair stages add nothing to the error of their helper: in
every run of `signup` whose Signup request succeeded, a failure of
`performLogin` or of `generateKeypairsForOrg` is returned as the very error
value the helper returned, and the failing helper is the last call of the
run.  What that error says is decided inside the helpers. -/
theorem signup_stage_error_verbatim (env : Env) (args : List String)
    (body : apitypes.Signup) (user : apitypes.User) (err : GoError)
    (hcall : Effect.UsersSignup body ∈ (signup env args).1)
    (hsignup : (env.UsersSignup body).2 = .ok user)
    (hfail : env.performLogin user.Body.Email body.Passphrase = some err
      ∨ (env.performLogin user.Body.Email body.Passphrase = none
          ∧ env.generateKeypairsForOrg none true = some err)) :
    (signup env args).2 = some err
      ∧ ∃ before, (signup env args).1 = before ++
          [match env.performLogin user.Body.Email body.Passphrase with
           | some _ => .performLogin user.Body.Email body.Passphrase
           | none => .generateKeypairsForOrg none true] := by
  obtain ⟨_, hrun⟩ := signup_reach hcall
  rcases hfail with hl | ⟨hl, hk⟩
  · rw [hrun, stages_login_error hsignup hl, hl]
    exact ⟨rfl, (signup.collect env args).1 ++ .Println "" :: .UsersSignup body ::
      signup.progress env body, by simp⟩
  · rw [hrun, stages_keypair_error hsignup hl hk, hl]
    exact ⟨rfl, (signup.collect env args).1 ++ .Println "" :: .UsersSignup body ::
      (signup.progress env body ++ [.performLogin user.Body.Email body.Passphrase]),
      by simp⟩

/-- Shape of every run of `signup`: either the collection phase returned an
error, or the Signup request was sent and followed by no helper call, by
`performLogin` alone, or by `performLogin` and `generateKeypairsForOrg` (and
then only printed lines). -/
theorem signup_run_cases (env : Env) (args : List String) :
    (∃ err, (signup.collect env args).2 = .error err
        ∧ signup env args = ((signup.collect env args).1, some err))
    ∨ (∃ body tail result, (signup.collect env args).2 = .ok body
        ∧ signup env args
            = ((signup.collect env args).1 ++ .Println "" :: .UsersSignup body ::
                (signup.progress env body ++ tail), result)
        ∧ ((tail = [] ∧ ∃ err, (env.UsersSignup body).2 = .error err)
          ∨ (∃ user, (env.UsersSignup body).2 = .ok user
              ∧ ((tail = [.performLogin user.Body.Email body.Passphrase]
                    ∧ env.performLogin user.Body.Email body.Passphrase ≠ none)
                ∨ (env.performLogin user.Body.Email body.Passphrase = none
                    ∧ ∃ rest, tail = .performLogin user.Body.Email body.Passphrase ::
                          .generateKeypairsForOrg none true :: rest
                        ∧ ∀ e ∈ rest, ∃ line, e = Effect.Println line))))) := by
  cases hc : (signup.collect env args).2 with
  | error err => exact Or.inl ⟨err, rfl, signup_of_collect_error hc⟩
  | ok body =>
    right
    rw [signup_of_collect_ok hc]
    cases hs : (env.UsersSignup body).2 with
    | error err =>
      rw [stages_signup_error hs]
      exact ⟨body, [], some (if strings.Contains err.Error "resource exists" then emailInUse
        else signupFailed), rfl, by simp, Or.inl ⟨rfl, err, hs⟩⟩
    | ok user =>
      cases hl : env.performLogin user.Body.Email body.Passphrase with
      | some err =>
        rw [stages_login_error hs hl]
        exact ⟨body, _, _, rfl, rfl, Or.inr ⟨user, hs, Or.inl ⟨rfl, by simp [hl]⟩⟩⟩
      | none =>
        cases hk : env.generateKeypairsForOrg none true with
        | some err =>
          rw [stages_keypair_error hs hl hk]
          exact ⟨body, _, _, rfl, rfl, Or.inr ⟨user, hs, Or.inr ⟨hl, [], rfl, by simp⟩⟩⟩
        | none =>
          rw [stages_success hs hl hk]
          exact ⟨body, _, _, rfl, rfl, Or.inr ⟨user, hs, Or.inr ⟨hl, _, rfl, by simp⟩⟩⟩

/-- C9: in every run of `signup`, the body of a Signup request is built from
the answers of the prompts of that run (the invite code is empty when
AG_DEBUG is set); `performLogin` is called only after a Signup request that
succeeded, with the email of the returned user record and the passphrase of
the request body; `generateKeypairsForOrg` is called only after a
`performLogin` that returned nil. -/
theorem signup_request_order (env : Env) (args : List String) :
    (∀ body, Effect.UsersSignup body ∈ (signup env args).1 →
        env.FullNamePrompt = .ok body.Name
        ∧ env.UsernamePrompt = .ok body.Username
        ∧ env.PasswordPrompt true = .ok body.Passphrase
        ∧ env.EmailPrompt (signup.defaultEmail args) = .ok body.Email
        ∧ (if env.Getenv "AG_DEBUG" = "" then
              env.InviteCodePrompt (signup.defaultInvite args) = .ok body.InviteCode
            else body.InviteCode = ""))
    ∧ (∀ email password, Effect.performLogin email password ∈ (signup env args).1 →
        ∃ body user before between after,
          (signup env args).1
              = before ++ .UsersSignup body :: (between ++ .performLogin email password :: after)
          ∧ (env.UsersSignup body).2 = .ok user
          ∧ email = user.Body.Email ∧ password = body.Passphrase)
    ∧ (∀ orgID all, Effect.generateKeypairsForOrg orgID all ∈ (signup env args).1 →
        ∃ email password before after,
          (signup env args).1 = before ++ .performLogin email password :: after
          ∧ Effect.generateKeypairsForOrg orgID all ∈ after
          ∧ env.performLogin email password = none) := by
  refine ⟨?_, ?_, ?_⟩
  · intro body hcall
    obtain ⟨hc, _⟩ := signup_reach hcall
    obtain ⟨_, hn, hu, he, hi, hp, _⟩ := collect_ok hc
    exact ⟨hn, hu, hp, he, hi⟩
  · intro email password hm
    rcases signup_run_cases env args with ⟨err, _, hrun⟩ | ⟨body, tail, result, _, hrun, ht⟩
    · rw [hrun] at hm
      exact absurd hm (daemon_call_not_local env args sampleBody
        (.performLogin email password) rfl).1
    · rw [hrun] at hm ⊢
      have hn := daemon_call_not_local env args body
        (.performLogin email password) rfl
      simp only [List.mem_append, List.mem_cons, reduceCtorEq, false_or] at hm
      rcases hm with hm | hm | hm
      · exact absurd hm hn.1
      · exact absurd hm hn.2
      rcases ht with ⟨ht, _⟩ | ⟨user, hs, ⟨ht, _⟩ | ⟨_, rest, ht, hrest⟩⟩
      · subst ht
        cases hm
      · subst ht
        simp only [List.mem_singleton, Effect.performLogin.injEq] at hm
        obtain ⟨h1, h2⟩ := hm
        subst h1 h2
        exact ⟨body, user, (signup.collect env args).1 ++ [.Println ""],
          signup.progress env body, [], by simp, hs, rfl, rfl⟩
      · subst ht
        simp only [List.mem_cons, Effect.performLogin.injEq, reduceCtorEq, false_or] at hm
        rcases hm with ⟨h1, h2⟩ | hm
        · subst h1 h2
          exact ⟨body, user, (signup.collect env args).1 ++ [.Println ""],
            signup.progress env body, .generateKeypairsForOrg none true :: rest,
            by simp, hs, rfl, rfl⟩
        · obtain ⟨line, hl⟩ := hrest _ hm
          cases hl
  · intro orgID all hm
    rcases signup_run_cases env args with ⟨err, _, hrun⟩ | ⟨body, tail, result, _, hrun, ht⟩
    · rw [hrun] at hm
      exact absurd hm (daemon_call_not_local env args sampleBody
        (.generateKeypairsForOrg orgID all) rfl).1
    · rw [hrun] at hm ⊢
      have hn := daemon_call_not_local env args body
        (.generateKeypairsForOrg orgID all) rfl
      simp only [List.mem_append, List.mem_cons, reduceCtorEq, false_or] at hm
      rcases hm with hm | hm | hm
      · exact absurd hm hn.1
      · exact absurd hm hn.2
      rcases ht with ⟨ht, _⟩ | ⟨user, hs, ⟨ht, _⟩ | ⟨hl, rest, ht, hrest⟩⟩
      · subst ht
        cases hm
      · subst ht
        simp only [List.mem_singleton, reduceCtorEq] at hm
      · subst ht
        refine ⟨user.Body.Email, body.Passphrase,
          (signup.collect env args).1 ++ .Println "" :: .UsersSignup body ::
            signup.progress env body, .generateKeypairsForOrg none true :: rest,
          by simp, ?_, hl⟩
        simp only [List.mem_cons, reduceCtorEq, false_or] at hm
        exact List.mem_cons.mpr hm

theorem signup_mem_prompt {env : Env} {args : List String} (e : Effect)
    (hp : e.isPrompt = true) (h : e ∈ (signup env args).1) :
    e.isCollectStep (signup.defaultEmail args) (signup.defaultInvite args) = true := by
  rcases signup_run_cases env args with ⟨err, _, hrun⟩ | ⟨body, tail, result, _, hrun, ht⟩
  · rw [hrun] at h
    exact collect_mem_step h
  · rw [hrun] at h
    simp only [List.mem_append, List.mem_cons] at h
    rcases h with h | h | h | h | h
    · exact collect_mem_step h
    · subst h; cases hp
    · subst h; cases hp
    · obtain ⟨line, hl⟩ := progress_mem h
      subst hl; cases hp
    · rcases ht with ⟨ht, _⟩ | ⟨user, hs, ⟨ht, _⟩ | ⟨_, rest, ht, hrest⟩⟩
      · subst ht; cases h
      · subst ht
        simp only [List.mem_singleton] at h
        subst h; cases hp
      · subst ht
        simp only [List.mem_cons] at h
        rcases h with h | h | h
        · subst h; cases hp
        · subst h; cases hp
        · obtain ⟨line, hl⟩ := hrest _ h
          subst hl; cases hp

theorem signup_accepts {env : Env} {args : List String}
    (hargs : ¬ (args.length > 0 ∧ args.length ≠ 2)) :
    (signup env args).1.head? = some .FullNamePrompt := by
  unfold signup
  rw [if_neg hargs]
  rfl

theorem signup_shows_email {env : Env} {args : List String} {name username : String}
    (hargs : ¬ (args.length > 0 ∧ args.length ≠ 2))
    (hn : env.FullNamePrompt = .ok name) (hu : env.UsernamePrompt = .ok username) :
    Effect.EmailPrompt (signup.defaultEmail args) ∈ (signup env args).1 := by
  unfold signup
  rw [if_neg hargs, hn]
  simp only []
  rw [hu]
  simp only [emit, signup.defaultEmail, List.mem_cons, true_or, or_true]

theorem signup_shows_invite {env : Env} {args : List String} {name username email : String}
    (hargs : ¬ (args.length > 0 ∧ args.length ≠ 2))
    (hn : env.FullNamePrompt = .ok name) (hu : env.UsernamePrompt = .ok username)
    (he : env.EmailPrompt (signup.defaultEmail args) = .ok email)
    (hd : env.Getenv "AG_DEBUG" = "") :
    Effect.InviteCodePrompt (signup.defaultInvite args) ∈ (signup env args).1 := by
  unfold signup.defaultEmail at he
  unfold signup
  rw [if_neg hargs, hn]
  simp only []
  rw [hu]
  simp only []
  rw [he]
  simp only [emit, emitAll, hd, if_true, signup.defaultInvite, List.mem_cons, List.mem_append,
    true_or, or_true]

/-- C10: with exactly one argument `signup` returns the exit error "Too few
arguments supplied." followed by the usage text, with three or more the exit
error "Too many arguments supplied." followed by the usage text, in both
cases without any prompt or daemon call (no call at all).  With zero or two
arguments the run starts with the first prompt; every email prompt and
invite prompt of the run then carries as default the first and second
argument (the empty string when there are no arguments), and these prompts
are shown once the earlier prompts have been answered. -/
theorem signup_argument_check (env : Env) (args : List String) :
    (args.length = 1 →
        signup env args = ([], some (cli.NewExitError
          ("Too few arguments supplied." ++ ("\n\n" ++ env.usageString)) (-1))))
    ∧ (3 ≤ args.length →
        signup env args = ([], some (cli.NewExitError
          ("Too many arguments supplied." ++ ("\n\n" ++ env.usageString)) (-1))))
    ∧ (args.length = 0 ∨ args.length = 2 →
        (signup env args).1.head? = some .FullNamePrompt
        ∧ (∀ d, Effect.EmailPrompt d ∈ (signup env args).1 → d = args.getD 0 "")
        ∧ (∀ d, Effect.InviteCodePrompt d ∈ (signup env args).1 → d = args.getD 1 "")
        ∧ (∀ name username, env.FullNamePrompt = .ok name →
            env.UsernamePrompt = .ok username →
            Effect.EmailPrompt (args.getD 0 "") ∈ (signup env args).1)
        ∧ (∀ name username email, env.FullNamePrompt = .ok name →
            env.UsernamePrompt = .ok username →
            env.EmailPrompt (args.getD 0 "") = .ok email →
            env.Getenv "AG_DEBUG" = "" →
            Effect.InviteCodePrompt (args.getD 1 "") ∈ (signup env args).1)) := by
  refine ⟨?_, ?_, ?_⟩
  · intro h1
    have hbad : args.length > 0 ∧ args.length ≠ 2 := by omega
    have hnot : ¬ args.length > 2 := by omega
    unfold signup
    rw [if_pos hbad]
    simp only [hnot, if_false]
    rw [← String.append_assoc]
    rfl
  · intro h3
    have hbad : args.length > 0 ∧ args.length ≠ 2 := by omega
    have hgt : args.length > 2 := by omega
    unfold signup
    rw [if_pos hbad]
    simp only [hgt, if_true]
    rw [← String.append_assoc]
    rfl
  · intro h02
    have hargs : ¬ (args.length > 0 ∧ args.length ≠ 2) := by omega
    have hE : signup.defaultEmail args = args.getD 0 "" := by
      unfold signup.defaultEmail
      rcases h02 with h | h
      · have : args = [] := List.length_eq_zero.mp h
        subst this
        rfl
      · rw [if_pos h]
    have hI : signup.defaultInvite args = args.getD 1 "" := by
      unfold signup.defaultInvite
      rcases h02 with h | h
      · have : args = [] := List.length_eq_zero.mp h
        subst this
        rfl
      · rw [if_pos h]
    refine ⟨signup_accepts hargs, ?_, ?_, ?_, ?_⟩
    · intro d hd
      have := signup_mem_prompt (.EmailPrompt d) rfl hd
      rw [← hE]
      simpa [Effect.isCollectStep] using this
    · intro d hd
      have := signup_mem_prompt (.InviteCodePrompt d) rfl hd
      rw [← hI]
      simpa [Effect.isCollectStep] using this
    · intro name username hn hu
      rw [← hE]
      exact signup_shows_email hargs hn hu
    · intro name username email hn hu he hd
      rw [← hE] at he
      rw [← hI]
      exact signup_shows_invite hargs hn hu he hd

/-! ### Concrete runs of `signup` -/

theorem signup_resource_exists_witness :
    Effect.UsersSignup sampleBody ∈ (signup sampleEmailTaken []).1
      ∧ (sampleEmailTaken.UsersSignup sampleBody).2
          = .error (.other "Conflict: resource exists")
      ∧ strings.Contains (GoError.other "Conflict: resource exists").Error "resource exists"
          = true
      ∧ (signup sampleEmailTaken []).2
          = some (cli.NewExitError "Email address in use, please try again." (-1)) :=
  ⟨by decide, rfl, by decide,
   (signup_resource_exists sampleEmailTaken [] sampleBody (.other "Conflict: resource exists")
      (by decide) rfl (by decide)).1⟩

theorem signup_failure_message_witness :
    Effect.UsersSignup sampleBody ∈ (signup sampleSignupDown []).1
      ∧ (sampleSignupDown.UsersSignup sampleBody).2
          = .error (.other "Internal server error")
      ∧ (signup sampleSignupDown []).2
          = some (cli.NewExitError "Signup failed, please try again." (-1)) :=
  ⟨by decide, rfl,
   (signup_failure_message sampleSignupDown [] sampleBody (.other "Internal server error")
      (by decide) rfl).2.mpr (by decide)⟩

theorem signup_keypair_failure_witness :
    Effect.UsersSignup sampleBody ∈ (signup sampleKeypairFails []).1
      ∧ (sampleKeypairFails.UsersSignup sampleBody).2 = .ok ⟨⟨"ann@example.com"⟩⟩
      ∧ sampleKeypairFails.performLogin "ann@example.com" "correct horse" = none
      ∧ sampleKeypairFails.generateKeypairsForOrg none true
          = some (.other "connection refused")
      ∧ (signup sampleKeypairFails []).2 = some (.other "connection refused") :=
  ⟨by decide, rfl, rfl, rfl,
   (signup_keypair_failure sampleKeypairFails [] sampleBody ⟨⟨"ann@example.com"⟩⟩
      (.other "connection refused") (by decide) rfl rfl rfl).1⟩

theorem signup_stage_error_verbatim_witness :
    Effect.UsersSignup sampleBody ∈ (signup sampleLoginFails []).1
      ∧ (sampleLoginFails.UsersSignup sampleBody).2 = .ok ⟨⟨"ann@example.com"⟩⟩
      ∧ sampleLoginFails.performLogin "ann@example.com" "correct horse"
          = some (.other "connection refused")
      ∧ (signup sampleLoginFails []).2 = some (.other "connection refused") :=
  ⟨by decide, rfl, rfl,
   (signup_stage_error_verbatim sampleLoginFails [] sampleBody ⟨⟨"ann@example.com"⟩⟩
      (.other "connection refused") (by decide) rfl (Or.inl rfl)).1⟩

theorem signup_request_order_witness :
    Effect.performLogin "ann@example.com" "correct horse" ∈ (signup sampleEnv []).1
      ∧ ∃ body user before between after,
          (signup sampleEnv []).1
              = before ++ .UsersSignup body ::
                  (between ++ .performLogin "ann@example.com" "correct horse" :: after)
          ∧ (sampleEnv.UsersSignup body).2 = .ok user
          ∧ "ann@example.com" = user.Body.Email ∧ "correct horse" = body.Passphrase :=
  ⟨by decide,
   (signup_request_order sampleEnv []).2.1 "ann@example.com" "correct horse" (by decide)⟩

theorem signup_argument_check_witness :
    ["ann@example.com"].length = 1
      ∧ signup sampleEnv ["ann@example.com"]
          = ([], some (cli.NewExitError
              ("Too few arguments supplied." ++ ("\n\n" ++ sampleEnv.usageString)) (-1)))
      ∧ (["ann@example.com", "invite-7"].length = 0 ∨ ["ann@example.com", "invite-7"].length = 2)
      ∧ Effect.InviteCodePrompt "invite-7"
          ∈ (signup sampleEnv ["ann@example.com", "invite-7"]).1 :=
  ⟨rfl, (signup_argument_check sampleEnv ["ann@example.com"]).1 rfl, Or.inr rfl,
   ((signup_argument_check sampleEnv ["ann@example.com", "invite-7"]).2.2
      (Or.inr rfl)).2.2.2.2 "Ann Lee" "ann" "ann@example.com" rfl rfl rfl rfl⟩

/-! ## Machine provisioning: lemmas -/

theorem createTokenSecret_trace (src : EntropyRead) :
    (createTokenSecret src).1 = [.randRead tokenSecretSize] := by
  unfold createTokenSecret
  simp only [emit]
  cases (rand.Read src tokenBuffer).2.2 <;> simp [tokenBuffer]

theorem createTokenSecret_err (src : EntropyRead) (err : GoError)
    (h : src.err = some err) : (createTokenSecret src).2 = (none, some err) := by
  have h2 : (rand.Read src tokenBuffer).2.2 = some err := h
  unfold createTokenSecret
  simp only [emit, h2]

theorem createTokenSecret_ok (src : EntropyRead) (h : src.err = none) :
    (createTokenSecret src).2
      = (some (base64.NewValue (rand.Read src tokenBuffer).1), none) := by
  have h2 : (rand.Read src tokenBuffer).2.2 = none := h
  unfold createTokenSecret
  simp only [emit, h2]

theorem rand_Read_full (src : EntropyRead) (hc : rand.ReadContract src tokenBuffer)
    (h : src.err = none) :
    (rand.Read src tokenBuffer).1 = src.delivered.take tokenSecretSize
      ∧ (src.delivered.take tokenSecretSize).length = tokenSecretSize
      ∧ tokenSecretSize ≤ src.delivered.length := by
  have hn : (rand.Read src tokenBuffer).2.1 = tokenBuffer.length := hc.mpr h
  have hlen : tokenBuffer.length = tokenSecretSize := by simp [tokenBuffer]
  simp only [rand.Read, hlen] at hn ⊢
  have hle : tokenSecretSize ≤ src.delivered.length := by
    rw [List.length_take] at hn
    omega
  refine ⟨?_, hn, hle⟩
  rw [hn, List.drop_of_length_le (by rw [hlen]), List.append_nil]

/-! ## Machine provisioning: claims -/

/-- C5: when the entropy read of `createTokenSecret` returns an error,
`Create` returns that error with a nil machine segment and a nil secret, and
the only call it made is the entropy read: neither `NewDaemonRequest` nor
`DoWithProgress` is invoked. -/
theorem Create_entropy_failure (env : api.Env) (orgID teamID : Option identity.ID)
    (name : String) (err : GoError)
    (hfail : (rand.Read env.entropy tokenBuffer).2.2 = some err) :
    (MachinesClient.Create env orgID teamID name).2 = (none, none, some err)
      ∧ (MachinesClient.Create env orgID teamID name).1 = [.randRead tokenSecretSize]
      ∧ ∀ e ∈ (MachinesClient.Create env orgID teamID name).1, e.isDaemonCall = false := by
  have herr : env.entropy.err = some err := hfail
  have h1 := createTokenSecret_trace env.entropy
  have h2 := createTokenSecret_err env.entropy err herr
  have hrun : MachinesClient.Create env orgID teamID name
      = ([.randRead tokenSecretSize], (none, none, some err)) := by
    unfold MachinesClient.Create
    rw [h1, h2]
    rfl
  rw [hrun]
  refine ⟨rfl, rfl, ?_⟩
  intro e he
  simp only [List.mem_singleton] at he
  subst he
  rfl

/-- C6: a call of `Create` that returns a nil error made exactly three calls:
the entropy read, one `NewDaemonRequest` with method POST, path /machines and
a body carrying the given name, org, team and the secret, and one
`DoWithProgress` on the request so built.  The secret encodes the buffer
filled by the entropy read of this call (all of it delivered bytes when the
read honours its contract), and the secret returned to the caller is the one
in the request body. -/
theorem Create_success_request (env : api.Env) (orgID teamID : Option identity.ID)
    (name : String)
    (hok : (MachinesClient.Create env orgID teamID name).2.2.2 = none) :
    ∃ result secret req reqID,
      (MachinesClient.Create env orgID teamID name).2 = (some result, some secret, none)
      ∧ (MachinesClient.Create env orgID teamID name).1
          = [.randRead tokenSecretSize,
             .NewDaemonRequest "POST" "/machines" none
               { Name := name, OrgID := orgID, TeamID := teamID, Secret := some secret },
             .DoWithProgress req reqID]
      ∧ env.NewDaemonRequest "POST" "/machines" none
          { Name := name, OrgID := orgID, TeamID := teamID, Secret := some secret }
          = .ok (req, reqID)
      ∧ env.DoWithProgress req reqID = .ok result
      ∧ secret = base64.NewValue (rand.Read env.entropy tokenBuffer).1
      ∧ (rand.ReadContract env.entropy tokenBuffer →
          secret = base64.NewValue (env.entropy.delivered.take tokenSecretSize)) := by
  have h1 := createTokenSecret_trace env.entropy
  revert hok
  unfold MachinesClient.Create
  rw [h1]
  cases herr : env.entropy.err with
  | some err =>
    rw [createTokenSecret_err env.entropy err herr]
    simp [emit, emitAll]
  | none =>
    rw [createTokenSecret_ok env.entropy herr]
    simp only [emit, emitAll]
    cases hreq : env.NewDaemonRequest "POST" "/machines" none
        { Name := name, OrgID := orgID, TeamID := teamID,
          Secret := some (base64.NewValue (rand.Read env.entropy tokenBuffer).1) } with
    | error err => simp
    | ok p =>
      obtain ⟨req, reqID⟩ := p
      simp only []
      cases hdo : env.DoWithProgress req reqID with
      | error err => simp
      | ok result =>
        intro _
        refine ⟨result, _, req, reqID, rfl, rfl, hreq, hdo, rfl, ?_⟩
        intro hc
        rw [(rand_Read_full env.entropy hc herr).1]

/-- C7: for every outcome of the entropy read that honours the contract of
`rand.Read`, `createTokenSecret` either returns the read error and a nil
secret, or returns the encoding of exactly 18 bytes, all of them delivered by
the entropy source; a short read or a failed read yields a nil secret. -/
theorem createTokenSecret_exact_or_error (src : EntropyRead)
    (hc : rand.ReadContract src tokenBuffer) :
    ((∃ err, src.err = some err ∧ (createTokenSecret src).2 = (none, some err))
      ∨ (src.err = none ∧ tokenSecretSize ≤ src.delivered.length
          ∧ (src.delivered.take tokenSecretSize).length = 18
          ∧ (createTokenSecret src).2
              = (some (base64.NewValue (src.delivered.take tokenSecretSize)), none)))
    ∧ ((src.delivered.length < tokenSecretSize ∨ src.err ≠ none) →
        (createTokenSecret src).2.1 = none ∧ (createTokenSecret src).2.2 ≠ none) := by
  cases herr : src.err with
  | some err =>
    have h := createTokenSecret_err src err herr
    refine ⟨Or.inl ⟨err, rfl, h⟩, ?_⟩
    intro _
    rw [h]
    simp
  | none =>
    have h := createTokenSecret_ok src herr
    obtain ⟨hbuf, hlen, hle⟩ := rand_Read_full src hc herr
    rw [hbuf] at h
    refine ⟨Or.inr ⟨rfl, hle, hlen, h⟩, ?_⟩
    intro hshort
    rcases hshort with hlt | hne
    · omega
    · exact absurd rfl hne

/-- C8: when the daemon exchange of `Create` fails, either in
`NewDaemonRequest` or in `DoWithProgress`, `Create` returns exactly the error
of the failing step, with a nil machine segment and a nil secret. -/
theorem Create_exchange_failure (env : api.Env) (orgID teamID : Option identity.ID)
    (name : String) (err : GoError)
    (hfail :
      (∃ body, api.Effect.NewDaemonRequest "POST" "/machines" none body
            ∈ (MachinesClient.Create env orgID teamID name).1
          ∧ env.NewDaemonRequest "POST" "/machines" none body = .error err)
      ∨ (∃ req reqID, api.Effect.DoWithProgress req reqID
            ∈ (MachinesClient.Create env orgID teamID name).1
          ∧ env.DoWithProgress req reqID = .error err)) :
    (MachinesClient.Create env orgID teamID name).2 = (none, none, some err) := by
  have h1 := createTokenSecret_trace env.entropy
  revert hfail
  unfold MachinesClient.Create
  rw [h1]
  cases herr : env.entropy.err with
  | some e =>
    rw [createTokenSecret_err env.entropy e herr]
    simp [emit, emitAll]
  | none =>
    rw [createTokenSecret_ok env.entropy herr]
    simp only [emit, emitAll]
    cases hreq : env.NewDaemonRequest "POST" "/machines" none
        { Name := name, OrgID := orgID, TeamID := teamID,
          Secret := some (base64.NewValue (rand.Read env.entropy tokenBuffer).1) } with
    | error e =>
      simp only [List.append_nil, List.singleton_append, List.mem_cons, List.mem_singleton,
        reduceCtorEq, false_or, or_false, List.not_mem_nil, api.Effect.NewDaemonRequest.injEq,
        true_and, false_and, exists_false, exists_const]
      rintro ⟨body, hb, hbe⟩
      subst hb
      rw [hreq] at hbe
      cases hbe
      rfl
    | ok p =>
      obtain ⟨req, reqID⟩ := p
      simp only []
      cases hdo : env.DoWithProgress req reqID with
      | error e =>
        simp only [List.append_nil, List.singleton_append, List.mem_cons, List.mem_singleton,
          reduceCtorEq, false_or, or_false, List.not_mem_nil,
          api.Effect.NewDaemonRequest.injEq, api.Effect.DoWithProgress.injEq,
          true_and, false_and, exists_false, exists_const]
        rintro (⟨body, hb, hbe⟩ | ⟨r, i, ⟨hr, hi⟩, hre⟩)
        · subst hb
          rw [hreq] at hbe
          cases hbe
        · subst hr hi
          rw [hdo] at hre
          cases hre
          rfl
      | ok result =>
        simp only [List.append_nil, List.singleton_append, List.mem_cons, List.mem_singleton,
          reduceCtorEq, false_or, or_false, List.not_mem_nil,
          api.Effect.NewDaemonRequest.injEq, api.Effect.DoWithProgress.injEq,
          true_and, false_and, exists_false, exists_const]
        rintro (⟨body, hb, hbe⟩ | ⟨r, i, ⟨hr, hi⟩, hre⟩)
        · subst hb
          rw [hreq] at hbe
          cases hbe
        · subst hr hi
          rw [hdo] at hre
          cases hre

/-! ### Concrete runs of `Create` -/

theorem Create_entropy_failure_witness :
    (rand.Read sampleShortEntropy.entropy tokenBuffer).2.2 = some (.other "unexpected EOF")
      ∧ (MachinesClient.Create sampleShortEntropy none none "ci").2
          = (none, none, some (.other "unexpected EOF")) :=
  ⟨by decide,
   (Create_entropy_failure sampleShortEntropy none none "ci" (.other "unexpected EOF")
      (by decide)).1⟩

theorem Create_success_request_witness :
    (MachinesClient.Create sampleDaemon none none "ci").2.2.2 = none
      ∧ ∃ result secret req reqID,
          (MachinesClient.Create sampleDaemon none none "ci").2
            = (some result, some secret, none)
          ∧ (MachinesClient.Create sampleDaemon none none "ci").1
              = [.randRead tokenSecretSize,
                 .NewDaemonRequest "POST" "/machines" none
                   { Name := "ci", OrgID := none, TeamID := none, Secret := some secret },
                 .DoWithProgress req reqID]
          ∧ sampleDaemon.NewDaemonRequest "POST" "/machines" none
              { Name := "ci", OrgID := none, TeamID := none, Secret := some secret }
              = .ok (req, reqID)
          ∧ sampleDaemon.DoWithProgress req reqID = .ok result
          ∧ secret = base64.NewValue (rand.Read sampleDaemon.entropy tokenBuffer).1
          ∧ (rand.ReadContract sampleDaemon.entropy tokenBuffer →
              secret = base64.NewValue (sampleDaemon.entropy.delivered.take tokenSecretSize)) :=
  ⟨by decide, Create_success_request sampleDaemon none none "ci" (by decide)⟩

theorem createTokenSecret_exact_or_error_witness :
    rand.ReadContract sampleDaemon.entropy tokenBuffer
      ∧ (createTokenSecret sampleDaemon.entropy).2
          = (some (base64.NewValue (List.replicate 18 7)), none) :=
  ⟨by decide,
   ((createTokenSecret_exact_or_error sampleDaemon.entropy (by decide)).1.resolve_left
      (by decide)).2.2.2⟩

theorem Create_exchange_failure_witness :
    api.Effect.DoWithProgress ⟨1⟩ "req-1"
        ∈ (MachinesClient.Create sampleDaemonRejects none none "ci").1
      ∧ sampleDaemonRejects.DoWithProgress ⟨1⟩ "req-1" = .error (.other "unauthorized")
      ∧ (MachinesClient.Create sampleDaemonRejects none none "ci").2
          = (none, none, some (.other "unauthorized")) :=
  ⟨by decide, rfl,
   Create_exchange_failure sampleDaemonRejects none none "ci" (.other "unauthorized")
     (Or.inr ⟨⟨1⟩, "req-1", by decide, rfl⟩)⟩

end Torus
